import Mathlib

/-!
Verification development for the Smart-news-aggregator scraper service.

This file shallowly embeds the ingestion core of the repository
(`src/scraper_service/app`): the `Article` data model and its MD5
fingerprint (`base_scraper.py`), the `fetch_page` retry loop, text
cleaning, freshness checking and validity filtering (`base_scraper.py`),
the RSS and NewsAPI entry parsers (`rss_scraper.py`, `api_scraper.py`),
article deduplication and batched backend delivery
(`tasks/scraping_tasks.py`), together with the configuration constants of
`config.py`.  All definitions are executable and theorems about them are
stated and proved below the definitions.
-/

set_option autoImplicit false
set_option maxRecDepth 8000

namespace NewsAggregator

/-- Decidable equality for `Except`, used to evaluate the embedded
fallible operations on concrete inputs. -/
instance {ε α : Type} [DecidableEq ε] [DecidableEq α] :
    DecidableEq (Except ε α) := fun a b =>
  match a, b with
  | .ok x, .ok y =>
    if h : x = y then .isTrue (congrArg Except.ok h)
    else .isFalse (fun hc => h (Except.ok.inj hc))
  | .error x, .error y =>
    if h : x = y then .isTrue (congrArg Except.error h)
    else .isFalse (fun hc => h (Except.error.inj hc))
  | .ok _, .error _ => .isFalse (fun hc => Except.noConfusion hc)
  | .error _, .ok _ => .isFalse (fun hc => Except.noConfusion hc)

/-! ### Python string primitives

The scrapers rely on Python's `str.split()`, `str.strip()`, `str.lower()`,
`str.replace` and the `in` substring test.  We model them over `String`.
Python's `split()` with no argument splits on runs of whitespace and drops
empty fields; `strip()` removes leading/trailing whitespace.  (We model the
ASCII whitespace characters; the articles and configuration strings of the
repository are ASCII.) -/

def pyIsSpace (c : Char) : Bool :=
  c = ' ' || c = '\t' || c = '\n' || c = '\r' || c = '\x0b' || c = '\x0c'

/-- `str.split()` with no separator: split on whitespace runs, no empty parts. -/
def pySplitAux : List Char → List Char → List String
  | [], [] => []
  | [], acc => [String.mk acc.reverse]
  | c :: cs, acc =>
    if pyIsSpace c then
      match acc with
      | [] => pySplitAux cs []
      | _ => String.mk acc.reverse :: pySplitAux cs []
    else pySplitAux cs (c :: acc)

def pySplit (s : String) : List String :=
  pySplitAux s.data []

/-- `str.strip()` with no argument. -/
def pyStrip (s : String) : String :=
  String.mk (((s.data.dropWhile pyIsSpace).reverse.dropWhile pyIsSpace).reverse)

/-- `str.lower()` on one ASCII character. -/
def pyLowerChar (c : Char) : Char :=
  if 65 ≤ c.toNat ∧ c.toNat ≤ 90 then Char.ofNat (c.toNat + 32) else c

/-- `str.lower()` (ASCII). -/
def pyLower (s : String) : String :=
  String.mk (s.data.map pyLowerChar)

/-- `needle in hay` for Python strings: substring containment. -/
def pyContains (hay needle : String) : Bool :=
  (List.range (hay.data.length + 1)).any fun i => needle.data.isPrefixOf (hay.data.drop i)

/-- `str.replace(pat, rep)`: replace all non-overlapping occurrences, left to
right.  The first argument of the auxiliary function is fuel bounding the
number of characters still to be examined (the Python loop consumes at least
one character per step because `pat` is nonempty at the call site). -/
def pyReplaceAux (pat rep : List Char) : Nat → List Char → List Char
  | _, [] => []
  | 0, s => s
  | fuel + 1, c :: rest =>
    if pat.isPrefixOf (c :: rest) then
      rep ++ pyReplaceAux pat rep fuel ((c :: rest).drop pat.length)
    else
      c :: pyReplaceAux pat rep fuel rest

def pyReplace (s pat rep : String) : String :=
  if pat = "" then s
  else String.mk (pyReplaceAux pat.data rep.data s.data.length s.data)

/-- Python `x or y` for strings defaulted to `''`: `x` if nonempty else `y`. -/
def pyOrStr (a b : String) : String :=
  if a ≠ "" then a else b

/-! ### UTF-8 and MD5

`Article._generate_hash` computes `hashlib.md5(f"{title}{url}".encode('utf-8')).hexdigest()`.
We embed UTF-8 encoding and the full MD5 algorithm over `List Nat` byte
sequences, with 32-bit words represented as `Nat` reduced `% 2^32`. -/

/-- UTF-8 encoding of one character (RFC 3629). -/
def utf8Char (c : Char) : List Nat :=
  let n := c.toNat
  if n < 0x80 then [n]
  else if n < 0x800 then
    [0xC0 ||| (n >>> 6), 0x80 ||| (n &&& 0x3F)]
  else if n < 0x10000 then
    [0xE0 ||| (n >>> 12), 0x80 ||| ((n >>> 6) &&& 0x3F), 0x80 ||| (n &&& 0x3F)]
  else
    [0xF0 ||| (n >>> 18), 0x80 ||| ((n >>> 12) &&& 0x3F),
     0x80 ||| ((n >>> 6) &&& 0x3F), 0x80 ||| (n &&& 0x3F)]

/-- UTF-8 bytes of a string, as `str.encode('utf-8')` produces. -/
def strBytes (s : String) : List Nat :=
  (s.data.map utf8Char).flatten

/-- `2^32`, the word modulus of MD5. -/
def M32 : Nat := 4294967296

/-- Bitwise complement within 32 bits. -/
def mnot (x : Nat) : Nat := x ^^^ (M32 - 1)

/-- 32-bit left rotation (`x` is assumed `< 2^32`). -/
def rotl (x s : Nat) : Nat :=
  (((x <<< s) % M32) ||| (x >>> (32 - s)))

/-- The MD5 sine-derived constant table `K[0..63]`. -/
def md5K : List Nat :=
  [0xd76aa478, 0xe8c7b756, 0x242070db, 0xc1bdceee,
   0xf57c0faf, 0x4787c62a, 0xa8304613, 0xfd469501,
   0x698098d8, 0x8b44f7af, 0xffff5bb1, 0x895cd7be,
   0x6b901122, 0xfd987193, 0xa679438e, 0x49b40821,
   0xf61e2562, 0xc040b340, 0x265e5a51, 0xe9b6c7aa,
   0xd62f105d, 0x02441453, 0xd8a1e681, 0xe7d3fbc8,
   0x21e1cde6, 0xc33707d6, 0xf4d50d87, 0x455a14ed,
   0xa9e3e905, 0xfcefa3f8, 0x676f02d9, 0x8d2a4c8a,
   0xfffa3942, 0x8771f681, 0x6d9d6122, 0xfde5380c,
   0xa4beea44, 0x4bdecfa9, 0xf6bb4b60, 0xbebfbc70,
   0x289b7ec6, 0xeaa127fa, 0xd4ef3085, 0x04881d05,
   0xd9d4d039, 0xe6db99e5, 0x1fa27cf8, 0xc4ac5665,
   0xf4292244, 0x432aff97, 0xab9423a7, 0xfc93a039,
   0x655b59c3, 0x8f0ccc92, 0xffeff47d, 0x85845dd1,
   0x6fa87e4f, 0xfe2ce6e0, 0xa3014314, 0x4e0811a1,
   0xf7537e82, 0xbd3af235, 0x2ad7d2bb, 0xeb86d391]

/-- The MD5 per-round left-rotation amounts `s[0..63]`. -/
def md5S : List Nat :=
  [7, 12, 17, 22, 7, 12, 17, 22, 7, 12, 17, 22, 7, 12, 17, 22,
   5, 9, 14, 20, 5, 9, 14, 20, 5, 9, 14, 20, 5, 9, 14, 20,
   4, 11, 16, 23, 4, 11, 16, 23, 4, 11, 16, 23, 4, 11, 16, 23,
   6, 10, 15, 21, 6, 10, 15, 21, 6, 10, 15, 21, 6, 10, 15, 21]

/-- Nonlinear round function of MD5 for round index `i`. -/
def md5F (i b c d : Nat) : Nat :=
  if i < 16 then (b &&& c) ||| (mnot b &&& d)
  else if i < 32 then (d &&& b) ||| (mnot d &&& c)
  else if i < 48 then b ^^^ c ^^^ d
  else c ^^^ (b ||| mnot d)

/-- Message-word index of MD5 for round index `i`. -/
def md5G (i : Nat) : Nat :=
  if i < 16 then i
  else if i < 32 then (5 * i + 1) % 16
  else if i < 48 then (3 * i + 5) % 16
  else (7 * i) % 16

/-- Little-endian decomposition of `n` into `k` bytes. -/
def toLEBytes (n k : Nat) : List Nat :=
  (List.range k).map fun i => (n >>> (8 * i)) &&& 0xFF

/-- The `g`-th little-endian 32-bit word of a 64-byte block. -/
def blockWord (block : List Nat) (g : Nat) : Nat :=
  block.getD (4 * g) 0 + 256 * block.getD (4 * g + 1) 0 +
    65536 * block.getD (4 * g + 2) 0 + 16777216 * block.getD (4 * g + 3) 0

/-- One of the 64 MD5 rounds. -/
def md5Round (block : List Nat) (st : Nat × Nat × Nat × Nat) (i : Nat) :
    Nat × Nat × Nat × Nat :=
  let (a, b, c, d) := st
  let t := (a + md5F i b c d + md5K.getD i 0 + blockWord block (md5G i)) % M32
  (d, (b + rotl t (md5S.getD i 0)) % M32, b, c)

/-- Process one 64-byte block, updating the running MD5 state. -/
def md5Block (st : Nat × Nat × Nat × Nat) (block : List Nat) :
    Nat × Nat × Nat × Nat :=
  let (a0, b0, c0, d0) := st
  let (a, b, c, d) := (List.range 64).foldl (md5Round block) (a0, b0, c0, d0)
  ((a0 + a) % M32, (b0 + b) % M32, (c0 + c) % M32, (d0 + d) % M32)

/-- MD5 padding: append `0x80`, zero bytes to 56 mod 64, then the 64-bit
little-endian bit length. -/
def md5Pad (msg : List Nat) : List Nat :=
  let len := msg.length
  let padLen := (55 + 64 - len % 64) % 64
  msg ++ [0x80] ++ List.replicate padLen 0 ++ toLEBytes ((len * 8) % (2 ^ 64)) 8

/-- Split a byte list into chunks of `k` bytes (`k > 0`); the first argument of
the auxiliary function is fuel bounded by the list length. -/
def chunkAux (k : Nat) : Nat → List Nat → List (List Nat)
  | _, [] => []
  | 0, _ => []
  | fuel + 1, xs => xs.take k :: chunkAux k fuel (xs.drop k)

def chunkBytes (k : Nat) (xs : List Nat) : List (List Nat) :=
  chunkAux k xs.length xs

/-- The 16-byte MD5 digest of a byte sequence. -/
def md5Bytes (msg : List Nat) : List Nat :=
  let blocks := chunkBytes 64 (md5Pad msg)
  let (a, b, c, d) :=
    blocks.foldl md5Block (0x67452301, 0xefcdab89, 0x98badcfe, 0x10325476)
  toLEBytes a 4 ++ toLEBytes b 4 ++ toLEBytes c 4 ++ toLEBytes d 4

def hexChar (n : Nat) : Char :=
  if n = 0 then '0' else if n = 1 then '1' else if n = 2 then '2'
  else if n = 3 then '3' else if n = 4 then '4' else if n = 5 then '5'
  else if n = 6 then '6' else if n = 7 then '7' else if n = 8 then '8'
  else if n = 9 then '9' else if n = 10 then 'a' else if n = 11 then 'b'
  else if n = 12 then 'c' else if n = 13 then 'd' else if n = 14 then 'e'
  else 'f'

def byteHex (b : Nat) : String :=
  String.mk [hexChar (b / 16), hexChar (b % 16)]

/-- `hashlib.md5(...).hexdigest()`. -/
def md5Hex (msg : List Nat) : String :=
  String.join ((md5Bytes msg).map byteHex)

/-! ### Configuration (`config.py`)

`Settings` carries the fields of `config.py` that the embedded code reads;
the default values are the defaults of `config.py`.  Sleep durations and
rates are modelled as exact rationals in seconds (`RETRY_DELAY: int = 5`,
`DOWNLOAD_DELAY: float = 1.0`, `REQUESTS_PER_SECOND: float = 2.0`). -/

structure Settings where
  MAX_RETRIES : Nat := 3
  RETRY_DELAY : ℚ := 5
  REQUESTS_PER_SECOND : ℚ := 2
  DOWNLOAD_DELAY : ℚ := 1
  MIN_ARTICLE_LENGTH : Nat := 50
  ALLOWED_LANGUAGES : List String := ["en"]
  BLACKLIST_KEYWORDS : List String := ["advertisement", "sponsored", "promoted"]
  SCRAPE_LAST_N_HOURS : Int := 24
  BATCH_SIZE : Nat := 10
  CHECK_DUPLICATES_BY_URL : Bool := true
  CHECK_DUPLICATES_BY_TITLE : Bool := true
deriving Repr

/-- The global `settings = Settings()` instance of `config.py`. -/
def settings : Settings := {}

/-- Module-level helper `is_allowed_language` of `config.py` (note: a module
function, not an attribute of the `Settings` instance). -/
def is_allowed_language (st : Settings) (language : String) : Bool :=
  st.ALLOWED_LANGUAGES.contains language

/-- Module-level helper `is_blacklisted` of `config.py` (note: a module
function, not an attribute of the `Settings` instance). -/
def is_blacklisted (st : Settings) (title : String) : Bool :=
  st.BLACKLIST_KEYWORDS.any fun keyword => pyContains (pyLower title) keyword

/-! ### The `Article` data model (`base_scraper.py`)

Timestamps (`datetime.utcnow()`, `published_at`) are modelled as `Int`
seconds since the epoch.  `content_hash` is the field set by `__init__`
from `_generate_hash`; `generate_hash` is the method itself. -/

structure Article where
  title : String
  url : String
  content : String := ""
  summary : String := ""
  author : Option String := none
  published_at : Int := 0
  source : String := ""
  category : Option String := none
  image_url : Option String := none
  language : String := "en"
  tags : List String := []
  content_hash : String := ""
  scraped_at : Int := 0
deriving DecidableEq, Repr

/-- `Article._generate_hash`: `hashlib.md5(f"{self.title}{self.url}".encode('utf-8')).hexdigest()`. -/
def Article.generate_hash (a : Article) : String :=
  md5Hex (strBytes (a.title ++ a.url))

/-- `Article.__init__` at wall-clock time `now`: `published_at` defaults to
`utcnow()`, `tags` to `[]`, `content_hash` is computed by `_generate_hash`,
and `scraped_at` is set to `utcnow()`. -/
def mkArticle (now : Int) (title url content summary : String)
    (author : Option String) (published_at : Option Int) (source : String)
    (category image_url : Option String) (language : String)
    (tags : List String) : Article :=
  let a : Article :=
    { title := title, url := url, content := content, summary := summary,
      author := author, published_at := published_at.getD now,
      source := source, category := category, image_url := image_url,
      language := language, tags := tags, scraped_at := now }
  { a with content_hash := a.generate_hash }

/-! ### `BaseScraper` text helpers -/

/-- `BaseScraper.clean_text`: `' '.join(text.split())`, then
`replace('\n\n\n', '\n\n')`, then `strip()`. -/
def clean_text (text : String) : String :=
  let text := String.intercalate " " (pySplit text)
  let text := pyReplace text "\n\n\n" "\n\n"
  pyStrip text

/-- `BaseScraper.is_recent`: `utcnow() - published_at < timedelta(hours=hours)`.
`now` and `published_at` are seconds; `hours` defaults at the call sites to
`settings.SCRAPE_LAST_N_HOURS`. -/
def is_recent (now published_at hours : Int) : Bool :=
  now - published_at < hours * 3600

/-! ### `BaseScraper.fetch_page` (retry loop)

`fetch_page(url, retry)` performs `session.get` + `raise_for_status`; on
success it sleeps `DOWNLOAD_DELAY` and returns the body; on any
`requests.RequestException` (timeouts, connection errors, and every HTTP
error status raised by `raise_for_status`, 4xx included) it sleeps
`RETRY_DELAY` and recurses with `retry + 1` while `retry < MAX_RETRIES`,
otherwise it returns `None`.

The outcome of attempt `n` (0-based) is supplied by `op n`.  The recursion
is bounded by `MAX_RETRIES - retry`, which `fetch_page` passes to the
worker as structural fuel; the fuel-exhausted branch is unreachable at that
call.  The returned trace records the requests issued and the sleeps
performed, in order. -/

/-- `requests.RequestException` outcomes of one attempt. -/
inductive ReqError where
  | timeout
  | connError
  /-- `requests.HTTPError` raised by `raise_for_status` for status ≥ 400. -/
  | httpStatus (code : Nat)
deriving DecidableEq, Repr

/-- Observable events of the fetch loop: an HTTP request being issued, or a
`time.sleep(d)` (seconds). -/
inductive Event where
  | request
  | sleep (d : ℚ)
deriving DecidableEq, Repr

def Event.isRequest : Event → Bool
  | .request => true
  | .sleep _ => false

structure FetchRes where
  trace : List Event
  result : Option String
deriving DecidableEq, Repr

def fetchPageGo (st : Settings) (op : Nat → Except ReqError String) :
    Nat → Nat → FetchRes
  | fuel, retry =>
    match op retry with
    | .ok text => ⟨[.request, .sleep st.DOWNLOAD_DELAY], some text⟩
    | .error _ =>
      if retry < st.MAX_RETRIES then
        match fuel with
        | 0 => ⟨[.request], none⟩
        | fuel + 1 =>
          let r := fetchPageGo st op fuel (retry + 1)
          ⟨.request :: .sleep st.RETRY_DELAY :: r.trace, r.result⟩
      else ⟨[.request], none⟩

/-- `BaseScraper.fetch_page` with attempt outcomes `op`, starting at attempt
number `retry` (callers pass `0`). -/
def fetch_page (st : Settings) (op : Nat → Except ReqError String)
    (retry : Nat) : FetchRes :=
  fetchPageGo st op (st.MAX_RETRIES - retry) retry

/-- Number of HTTP requests recorded in a trace. -/
def numRequests (tr : List Event) : Nat :=
  tr.countP Event.isRequest

/-- For each event of the trace, emit at every `request` the total sleep time
accumulated since the previous `request` (the accumulator starts at `acc`). -/
def gapsAux : List Event → ℚ → List ℚ
  | [], _ => []
  | .request :: rest, acc => acc :: gapsAux rest 0
  | .sleep d :: rest, acc => gapsAux rest (acc + d)

/-- Sleep time accumulated after the last `request` of the trace (after all of
it, if it has no `request`), starting from `acc`. -/
def trailSleep : List Event → ℚ → ℚ
  | [], acc => acc
  | .request :: rest, _ => trailSleep rest 0
  | .sleep d :: rest, acc => trailSleep rest (acc + d)

/-- The enforced waits between consecutive requests of a trace that begins
with a `request`: `gapsAux` emits one leading `0` for that first request,
which `.tail` drops. -/
def requestGaps (tr : List Event) : List ℚ :=
  (gapsAux tr 0).tail

/-- Traces of a sequence of `fetch_page` calls issued back to back (each call
starting at `retry = 0`), concatenated. -/
def runCalls (st : Settings) (ops : List (Nat → Except ReqError String)) : List Event :=
  (ops.map fun op => (fetch_page st op 0).trace).flatten

/-! ### RSS feed parsing (`rss_scraper.py`)

`RSSFeedScraper._parse_entry` reads a feedparser entry.  We model the entry
fields the code reads.  `published_parsed` stands for the already-parsed
timestamp (the guarded `datetime(*entry.published_parsed[:6])` conversion);
`media_content` / `media_thumbnail` hold the `url` values of the media
dicts (`none` when a dict has no such key); an absent attribute and an
empty list behave identically in the code, so both are the empty list.
`detect` stands for `langdetect.detect` (an external library), supplied as
a parameter. -/

structure RssEntryData where
  title : String := ""
  link : String := ""
  summary : String := ""
  description : String := ""
  /-- `entry.content[0].value` when present and nonempty, else `none`. -/
  content : Option String := none
  author : Option String := none
  published_parsed : Option Int := none
  media_content : List (Option String) := []
  media_thumbnail : List (Option String) := []
  /-- Enclosures as (`type`, `href`) pairs. -/
  enclosures : List (String × Option String) := []
  tags : List String := []
deriving DecidableEq, Repr

/-- Python truthiness of an optional string (`None` and `''` are falsy). -/
def optFalsy : Option String → Bool
  | none => true
  | some s => s = ""

/-- The enclosure scan of `_parse_entry`: first enclosure whose `type` starts
with `image/` contributes its `href`, then the loop breaks. -/
def findImageEnclosure : List (String × Option String) → Option String
  | [] => none
  | (ty, href) :: rest =>
    if "image/".isPrefixOf ty then href else findImageEnclosure rest

/-- The image-resolution chain of `_parse_entry`: `media_content[0].get('url')`,
then (if falsy) `media_thumbnail[0].get('url')`, then (if falsy) the
enclosure scan. -/
def rssImageUrl (e : RssEntryData) : Option String :=
  let i1 : Option String := match e.media_content with
    | [] => none
    | m :: _ => m
  let i2 : Option String :=
    if optFalsy i1 then
      match e.media_thumbnail with
      | [] => none
      | m :: _ => m
    else i1
  if optFalsy i2 then findImageEnclosure e.enclosures else i2

/-- `RSSFeedScraper._parse_entry`.  Returns `none` for entries rejected by the
title/link checks or the freshness check. -/
def rssParseEntry (st : Settings) (detect : String → String) (now : Int)
    (source_name : String) (category : Option String) (e : RssEntryData) :
    Option Article :=
  let title := pyStrip e.title
  if title = "" then none
  else
    let url := pyStrip e.link
    if url = "" then none
    else
      let summary := clean_text (pyOrStr e.summary e.description)
      let content := match e.content with
        | some v => v
        | none => ""
      let content := if content = "" then summary else content
      let content := clean_text content
      let author := e.author
      let published_at := (e.published_parsed).getD now
      if ¬ is_recent now published_at st.SCRAPE_LAST_N_HOURS then none
      else
        let image_url := rssImageUrl e
        let tags := e.tags
        let language := detect (title ++ " " ++ content)
        some (mkArticle now title url content summary author (some published_at)
          source_name category image_url language tags)

/-- A feed entry as iterated by `RSSFeedScraper.scrape`: either well-formed
data, or an entry on which `_parse_entry` raises (the `except Exception`
per-entry branch of `scrape`). -/
inductive RssEntry where
  | good (e : RssEntryData)
  | malformed
deriving Repr

/-- `_parse_entry` as invoked by `scrape`: a malformed entry raises
(`Except.error`), a well-formed one returns its parse result. -/
def parseEntryE (st : Settings) (detect : String → String) (now : Int)
    (source_name : String) (category : Option String) :
    RssEntry → Except Unit (Option Article)
  | .malformed => .error ()
  | .good e => .ok (rssParseEntry st detect now source_name category e)

/-- The entry loop of `RSSFeedScraper.scrape`: append each parsed article;
on a per-entry exception, log and `continue`. -/
def rssScrape (st : Settings) (detect : String → String) (now : Int)
    (source_name : String) (category : Option String)
    (entries : List RssEntry) : List Article :=
  entries.foldl
    (fun articles entry =>
      match parseEntryE st detect now source_name category entry with
      | .error _ => articles
      | .ok none => articles
      | .ok (some a) => articles ++ [a])
    []

/-! ### NewsAPI parsing (`api_scraper.py`)

`NewsAPIScraper._parse_api_article` reads one item of the API response.
`publishedAt` stands for the guarded `datetime.fromisoformat` parse
(`none` when the field is absent or unparseable). -/

structure ApiItem where
  title : String := ""
  url : String := ""
  description : String := ""
  content : String := ""
  author : Option String := none
  publishedAt : Option Int := none
  source_id : Option String := none
  source_name : Option String := none
  urlToImage : Option String := none
deriving DecidableEq, Repr

/-- `NewsAPIScraper._parse_api_article`. -/
def apiParseArticle (detect : String → String) (now : Int)
    (category : Option String) (item : ApiItem) : Option Article :=
  let title := pyStrip item.title
  let url := pyStrip item.url
  if title = "" ∨ url = "" then none
  else
    let description := item.description
    let content := item.content
    -- "Если нет контента, используем description"
    let content := if content = "" ∨ content.length < 100 then description else content
    let author := item.author
    let published_at := item.publishedAt
    -- source_info.get('id') or source_info.get('name', 'newsapi')
    let source_name := match item.source_id with
      | some s => if s ≠ "" then s else item.source_name.getD "newsapi"
      | none => item.source_name.getD "newsapi"
    let image_url := item.urlToImage
    let language := detect (title ++ " " ++ content)
    some (mkArticle now (clean_text title) url (clean_text content)
      (clean_text description) author (some (published_at.getD now))
      source_name category image_url language [])

/-! ### Deduplication (`scraping_tasks.deduplicate_articles`) -/

/-- The loop of `deduplicate_articles`.  Note the source adds the URL to
`seen_urls` before performing the hash check, so a hash-skipped article
still claims its URL. -/
def dedupGo (checkUrl checkTitle : Bool) :
    List String → List String → List Article → List Article
  | _, _, [] => []
  | seenUrls, seenHashes, a :: rest =>
    if checkUrl ∧ a.url ∈ seenUrls then
      dedupGo checkUrl checkTitle seenUrls seenHashes rest
    else
      let seenUrls' := if checkUrl then a.url :: seenUrls else seenUrls
      if checkTitle ∧ a.content_hash ∈ seenHashes then
        dedupGo checkUrl checkTitle seenUrls' seenHashes rest
      else
        a :: dedupGo checkUrl checkTitle seenUrls'
          (if checkTitle then a.content_hash :: seenHashes else seenHashes) rest

/-- `deduplicate_articles`. -/
def deduplicate_articles (st : Settings) (articles : List Article) : List Article :=
  dedupGo st.CHECK_DUPLICATES_BY_URL st.CHECK_DUPLICATES_BY_TITLE [] [] articles

/-! ### Backend delivery (`scraping_tasks.send_articles_to_backend`)

The task slices `articles` into `BATCH_SIZE` slices, POSTs them in order,
and accumulates `sent_count += result.get('created', len(batch))`.  An
`httpx.HTTPError` (e.g. from `raise_for_status`) or any other exception
aborts the loop and re-raises via `self.retry(...)` — the whole task is
retried; no per-batch failure statistic exists.

`respond i batch` models the backend's response to the POST of batch `i`:
`.ok created?` is a 2xx response whose JSON optionally carries `created`;
`.error msg` is a raised `httpx.HTTPError`. -/

/-- The slicing `[articles[i:i+batch_size] for i in range(0, len(articles), batch_size)]`
(`batch_size > 0`; the fuel is bounded by the list length). -/
def chunkListAux {α : Type} (k : Nat) : Nat → List α → List (List α)
  | _, [] => []
  | 0, _ => []
  | fuel + 1, xs => xs.take k :: chunkListAux k fuel (xs.drop k)

def chunkList {α : Type} (k : Nat) (xs : List α) : List (List α) :=
  chunkListAux k xs.length xs

/-- The batch loop: returns the indices of the batches POSTed (in order) and
either the final `sent_count` or the first raised error. -/
def sendGo {α : Type} (respond : Nat → List α → Except String (Option Nat)) :
    List (List α) → Nat → Nat → List Nat × Except String Nat
  | [], _, sent => ([], .ok sent)
  | batch :: rest, i, sent =>
    match respond i batch with
    | .error e => ([i], .error e)
    | .ok created =>
      let r := sendGo respond rest (i + 1) (sent + created.getD batch.length)
      (i :: r.1, r.2)

/-- `send_articles_to_backend` (one task execution, no Celery-level retry):
empty input returns `0` immediately. -/
def send_articles_to_backend {α : Type} (st : Settings)
    (respond : Nat → List α → Except String (Option Nat)) (articles : List α) :
    List Nat × Except String Nat :=
  if articles.isEmpty then ([], .ok 0)
  else sendGo respond (chunkList st.BATCH_SIZE articles) 0 0

/-! ### Validity filtering (`Article.is_valid`, `BaseScraper.run`)

`Article.is_valid` checks title/url, then the word count, then calls
`settings.is_allowed_language(...)` and `settings.is_blacklisted(...)`.
In `config.py` these two names are module-level functions, not attributes
of the `Settings` instance (`settings = Settings()`, a pydantic
`BaseSettings` model with no such fields or methods), so the attribute
lookup raises `AttributeError` whenever execution reaches it — i.e. for
every article that passes the word-count check.  We model `is_valid` as
`Except`, erroring exactly where the Python attribute lookup raises, and
separately define the check the method documents (using the module-level
helpers) as `is_valid_intended`. -/

def Article.is_valid (st : Settings) (a : Article) : Except String Bool :=
  if a.title = "" ∨ a.url = "" then .ok false
  else
    let word_count := (pySplit a.content).length
    if word_count < st.MIN_ARTICLE_LENGTH then .ok false
    else .error "AttributeError: 'Settings' object has no attribute 'is_allowed_language'"

/-- The validity predicate `is_valid` documents: required fields, minimum
word count, allowed language (module helper), no blacklisted keyword in the
title (module helper). -/
def Article.is_valid_intended (st : Settings) (a : Article) : Bool :=
  if a.title = "" ∨ a.url = "" then false
  else if (pySplit a.content).length < st.MIN_ARTICLE_LENGTH then false
  else if ¬ is_allowed_language st a.language then false
  else if is_blacklisted st a.title then false
  else true

/-- The filtering comprehension of `run`:
`[a for a in articles if self.validate_article(a)]`, evaluated left to
right; the first exception raised by `is_valid` propagates. -/
def filterValid (st : Settings) : List Article → Except String (List Article)
  | [] => .ok []
  | a :: rest => do
    let b ← a.is_valid st
    let v ← filterValid st rest
    .ok (if b then a :: v else v)

/-- `BaseScraper.run`: run `scrape()`, filter through `validate_article`;
any exception in the `try` block is caught and `[]` is returned. -/
def runScraper (st : Settings) (scrape : Except String (List Article)) :
    List Article :=
  match scrape with
  | .error _ => []
  | .ok articles =>
    match filterValid st articles with
    | .ok valid => valid
    | .error _ => []

/-! ### Auxiliary shapes and concrete inputs used in the theorems below -/

/-- The trace of a `fetch_page` call whose every attempt fails with `k`
retries remaining: `k` request/`RETRY_DELAY`-sleep pairs and a final
request. -/
def failTrace (st : Settings) : Nat → List Event
  | 0 => [.request]
  | k + 1 => .request :: .sleep st.RETRY_DELAY :: failTrace st k

/-- An operation failing every attempt with a timeout. -/
def failOp : Nat → Except ReqError String :=
  fun _ => .error .timeout

/-- An operation failing every attempt with HTTP 404 (a non-429 4xx). -/
def notFoundOp : Nat → Except ReqError String :=
  fun _ => .error (.httpStatus 404)

/-- An operation succeeding on every attempt. -/
def okOp : Nat → Except ReqError String :=
  fun _ => .ok "<html>ok</html>"

/-- A stand-in for `langdetect.detect` that always reports English. -/
def detectEn : String → String :=
  fun _ => "en"

/-- Two articles with the same stored title and URL but different content,
summary, author, timestamps and source. -/
def artSameA : Article :=
  { title := "Breaking news", url := "https://example.com/b", content := "first body",
    author := some "Alice", published_at := 100, source := "bbc" }

def artSameB : Article :=
  { title := "Breaking news", url := "https://example.com/b", content := "second body",
    summary := "other", author := some "Bob", published_at := 999, source := "cnn",
    scraped_at := 5 }

/-- Two articles whose titles differ only in internal whitespace (the Feed
connector only strips titles, so both can arise), with the same URL. -/
def artSpaced : Article :=
  { title := "a  b", url := "u" }

def artCollapsed : Article :=
  { title := "a b", url := "u" }

/-- Two duplicate articles (same title and URL) as the `Article` constructor
builds them, differing in content, source and timestamps. -/
def dupA : Article :=
  mkArticle 10 "Same story" "https://example.com/s" "first text" "" none (some 1)
    "bbc" none none "en" []

def dupB : Article :=
  mkArticle 20 "Same story" "https://example.com/s" "second text" "sum" (some "X")
    (some 2) "cnn" none none "en" []

/-- Backend responses for a delivery where the POST of batch 1 (0-based)
raises `httpx.HTTPError` and every other batch gets a 2xx response whose
JSON has no `created` field. -/
def respondFailAt1 : Nat → List Nat → Except String (Option Nat) :=
  fun i _ => if i = 1 then .error "HTTPError" else .ok none

/-- A NewsAPI item published at epoch second 0, fetched 40 days later:
well-formed but far older than any freshness window in the configuration. -/
def staleItem : ApiItem :=
  { title := "Old story", url := "https://example.com/old",
    description := "A forty day old piece of news", publishedAt := some 0 }

/-- 40 days, in seconds. -/
def now40d : Int := 3456000

/-- An RSS entry published at epoch second 0 and fetched 40 days later. -/
def staleRssEntry : RssEntryData :=
  { title := "Old story", link := "https://example.com/old",
    summary := "A forty day old piece of news", published_parsed := some 0 }

/-- Twenty-five article payloads: three batches at `BATCH_SIZE = 10`. -/
def articles25 : List Nat := List.range 25

/-- A well-formed, fresh RSS entry. -/
def goodEntry1 : RssEntryData :=
  { title := "First article", link := "https://example.com/1",
    summary := "Summary one", published_parsed := some 1000000 }

/-- Fetch time for `goodEntry1`: same second it was published. -/
def rssNow : Int := 1000000

def defaultArticle : Article :=
  { title := "", url := "" }

/-- Fifty space-separated words. -/
def content50 : String :=
  String.intercalate " " (List.replicate 50 "word")

/-- An article satisfying every documented validity condition: nonempty title
and URL, 50 words of content, allowed language, no blacklisted keyword. -/
def validArticle : Article :=
  mkArticle 0 "Quantum computing advances" "https://example.com/q" content50 ""
    none (some 0) "bbc" none none "en" []

/-! ## Theorems -/

/-! ### Helper lemmas about the `fetch_page` retry loop -/

theorem fetchPageGo_fail (st : Settings) (op : Nat → Except ReqError String)
    (hop : ∀ n, ∃ e, op n = .error e) :
    ∀ fuel retry, fuel = st.MAX_RETRIES - retry →
      fetchPageGo st op fuel retry = ⟨failTrace st fuel, none⟩ := by
  intro fuel
  induction fuel with
  | zero =>
    intro retry h
    obtain ⟨e, he⟩ := hop retry
    have hge : ¬ retry < st.MAX_RETRIES := by omega
    simp [fetchPageGo, he, hge, failTrace]
  | succ k ih =>
    intro retry h
    obtain ⟨e, he⟩ := hop retry
    have hlt : retry < st.MAX_RETRIES := by omega
    have hrec := ih (retry + 1) (by omega)
    simp [fetchPageGo, he, hlt, failTrace, hrec]

theorem fetch_page_fail (st : Settings) (op : Nat → Except ReqError String)
    (hop : ∀ n, ∃ e, op n = .error e) :
    fetch_page st op 0 = ⟨failTrace st st.MAX_RETRIES, none⟩ :=
  fetchPageGo_fail st op hop st.MAX_RETRIES 0 (by omega)

theorem numRequests_failTrace (st : Settings) :
    ∀ k, numRequests (failTrace st k) = k + 1 := by
  intro k
  induction k with
  | zero => simp [failTrace, numRequests, Event.isRequest]
  | succ n ih =>
    simp only [failTrace, numRequests, List.countP_cons] at ih ⊢
    simp [Event.isRequest] at ih ⊢
    omega

theorem gapsAux_failTrace (st : Settings) :
    ∀ k a, gapsAux (failTrace st k) a = a :: List.replicate k st.RETRY_DELAY := by
  intro k
  induction k with
  | zero => intro a; simp [failTrace, gapsAux]
  | succ n ih =>
    intro a
    simp [failTrace, gapsAux, ih, List.replicate_succ]

theorem trailSleep_failTrace (st : Settings) :
    ∀ k a, trailSleep (failTrace st k) a = 0 := by
  intro k
  induction k with
  | zero => intro a; simp [failTrace, trailSleep]
  | succ n ih =>
    intro a
    simp [failTrace, trailSleep, ih]

/-! ### C2 — retry count and terminal behaviour of `fetch_page` -/

/-- C2 (counterexample): on an operation that fails every attempt,
`fetch_page` issues `4 = MAX_RETRIES + 1` requests — not `MAX_RETRIES = 3`
as the claim states — and then returns `None` (an ordinary non-error
return value) instead of raising the last error. -/
theorem C2_fetch_page_calls_counterexample :
    numRequests (fetch_page settings failOp 0).trace = 4 ∧
      ¬ numRequests (fetch_page settings failOp 0).trace = settings.MAX_RETRIES ∧
      (fetch_page settings failOp 0).result = none := by
  refine ⟨?_, ?_, ?_⟩ <;> decide

/-- C2 (amended): for every operation that fails on every attempt,
`fetch_page` starting at `retry = 0` invokes the operation exactly
`MAX_RETRIES + 1` times (the initial attempt plus `MAX_RETRIES` retries)
and then returns `None` — it does not raise. -/
theorem C2_fetch_page_retry_bound (st : Settings)
    (op : Nat → Except ReqError String) (hop : ∀ n, ∃ e, op n = .error e) :
    numRequests (fetch_page st op 0).trace = st.MAX_RETRIES + 1 ∧
      (fetch_page st op 0).result = none := by
  rw [fetch_page_fail st op hop]
  exact ⟨numRequests_failTrace st st.MAX_RETRIES, rfl⟩

/-- C2 (witness): the amended bound evaluated on the always-timeout
operation at the default settings: 4 invocations, result `None`. -/
theorem C2_fetch_page_retry_bound_witness :
    numRequests (fetch_page settings failOp 0).trace = settings.MAX_RETRIES + 1 ∧
      (fetch_page settings failOp 0).result = none :=
  C2_fetch_page_retry_bound settings failOp (fun _ => ⟨.timeout, rfl⟩)

/-! ### C4 — inter-retry delays -/

/-- C4 (counterexample): the delays `fetch_page` actually sleeps before its
retries are `[5, 5, 5]` seconds; in particular the delay before retry 2 is
`5`, whereas the claimed `base_delay * 2^(2-1) + jitter` with
`jitter ∈ [0, base_delay)` would force a value in `[10, 15)` — no such
jitter exists.  The deterministic part does not double. -/
theorem C4_backoff_counterexample :
    requestGaps (fetch_page settings failOp 0).trace = [5, 5, 5] ∧
      ¬ ∃ j : ℚ, 0 ≤ j ∧ j < settings.RETRY_DELAY ∧
        (requestGaps (fetch_page settings failOp 0).trace).getD 1 0 =
          settings.RETRY_DELAY * 2 ^ (2 - 1) + j := by
  have hfail : ∀ n, ∃ e, failOp n = .error e := fun _ => ⟨.timeout, rfl⟩
  have h1 : requestGaps (fetch_page settings failOp 0).trace = [5, 5, 5] := by
    rw [fetch_page_fail settings failOp hfail]
    show (gapsAux (failTrace settings settings.MAX_RETRIES) 0).tail = _
    rw [gapsAux_failTrace]
    rfl
  refine ⟨h1, ?_⟩
  rintro ⟨j, hj0, hj5, heq⟩
  have hR : settings.RETRY_DELAY = 5 := rfl
  rw [h1, hR] at heq
  rw [hR] at hj5
  norm_num [List.getD] at heq
  linarith

/-- C4 (amended): the delay before every retry is the constant
`RETRY_DELAY`: on an always-failing operation the waits between consecutive
requests are exactly `MAX_RETRIES` copies of `RETRY_DELAY` — no doubling
and no jitter. -/
theorem C4_constant_retry_delay (st : Settings)
    (op : Nat → Except ReqError String) (hop : ∀ n, ∃ e, op n = .error e) :
    requestGaps (fetch_page st op 0).trace =
      List.replicate st.MAX_RETRIES st.RETRY_DELAY := by
  rw [fetch_page_fail st op hop]
  show (gapsAux (failTrace st st.MAX_RETRIES) 0).tail = _
  rw [gapsAux_failTrace st st.MAX_RETRIES 0]
  rfl

/-- C4 (witness): at the default settings on the always-timeout operation
the three inter-retry waits are each `RETRY_DELAY = 5` seconds. -/
theorem C4_constant_retry_delay_witness :
    requestGaps (fetch_page settings failOp 0).trace =
      List.replicate settings.MAX_RETRIES settings.RETRY_DELAY :=
  C4_constant_retry_delay settings failOp (fun _ => ⟨.timeout, rfl⟩)

/-! ### C5 — 4xx responses and the retry budget -/

/-- C5 (counterexample): an operation that always fails with HTTP 404 (a
4xx other than 429) is invoked 4 times by `fetch_page`, not exactly once:
`raise_for_status` raises `requests.HTTPError`, which the
`except requests.RequestException` branch retries like any other failure. -/
theorem C5_4xx_retried_counterexample :
    numRequests (fetch_page settings notFoundOp 0).trace = 4 ∧
      ¬ numRequests (fetch_page settings notFoundOp 0).trace = 1 := by
  constructor <;> decide

/-- C5 (amended): a request failing with any fixed 4xx status other than
429 is not surfaced immediately: the operation is re-invoked like any other
failing operation, `MAX_RETRIES + 1` times in total, and `fetch_page`
finally returns `None`. -/
theorem C5_4xx_consumes_retries (st : Settings)
    (op : Nat → Except ReqError String) (code : Nat) (h400 : 400 ≤ code)
    (h500 : code < 500) (h429 : code ≠ 429)
    (hop : ∀ n, op n = .error (.httpStatus code)) :
    numRequests (fetch_page st op 0).trace = st.MAX_RETRIES + 1 ∧
      (fetch_page st op 0).result = none := by
  have hop' : ∀ n, ∃ e, op n = .error e := fun n => ⟨.httpStatus code, hop n⟩
  rw [fetch_page_fail st op hop']
  exact ⟨numRequests_failTrace st st.MAX_RETRIES, rfl⟩

/-- C5 (witness): the amended statement evaluated on the always-404
operation at the default settings. -/
theorem C5_4xx_consumes_retries_witness :
    numRequests (fetch_page settings notFoundOp 0).trace = settings.MAX_RETRIES + 1 ∧
      (fetch_page settings notFoundOp 0).result = none :=
  C5_4xx_consumes_retries settings notFoundOp 404 (by norm_num) (by norm_num)
    (by norm_num) (fun _ => rfl)

/-! ### C1 — the fingerprint and its inputs -/

/-- C1 (counterexample): two articles whose titles differ only in internal
whitespace — so their `clean_text`-normalized titles coincide — and which
share the same URL nevertheless have different fingerprints, because
`_generate_hash` hashes the stored title, which the Feed connector only
strips.  (The hex digests are those of MD5 over `"a  b" + "u"` and
`"a b" + "u"`.) -/
theorem C1_fingerprint_normalization_counterexample :
    clean_text artSpaced.title = clean_text artCollapsed.title ∧
      artSpaced.url = artCollapsed.url ∧
      artSpaced.generate_hash ≠ artCollapsed.generate_hash := by
  refine ⟨by decide, rfl, by decide⟩

/-- C1 (amended): the fingerprint is a function of the stored title and URL
alone: any two `Article`s with equal `title` and equal `url` fields have
equal `_generate_hash` values, whatever their content, summary, author,
timestamps or source.  (Equality of `clean_text`-normalized titles does not
suffice, because the RSS connector passes titles that are stripped but not
whitespace-collapsed.) -/
theorem C1_fingerprint_function_of_title_url (a b : Article)
    (htitle : a.title = b.title) (hurl : a.url = b.url) :
    a.generate_hash = b.generate_hash := by
  unfold Article.generate_hash
  rw [htitle, hurl]

/-- C1 (witness): two articles sharing title and URL but differing in
content, summary, author, timestamps and source have equal fingerprints. -/
theorem C1_fingerprint_function_of_title_url_witness :
    artSameA.generate_hash = artSameB.generate_hash :=
  C1_fingerprint_function_of_title_url artSameA artSameB rfl rfl

/-! ### C7 — deduplication -/

/-- Running the dedup loop a second time, starting from any seen-sets
contained in the original ones, keeps every article the first run kept:
the key invariant behind idempotence of `deduplicate_articles`. -/
theorem dedupGo_idem_of_subset (cu ct : Bool) :
    ∀ (xs : List Article) (su sh su0 sh0 : List String),
      su0 ⊆ su → sh0 ⊆ sh →
      dedupGo cu ct su0 sh0 (dedupGo cu ct su sh xs) = dedupGo cu ct su sh xs := by
  intro xs
  induction xs with
  | nil => intro su sh su0 sh0 _ _; simp [dedupGo]
  | cons a rest ih =>
    intro su sh su0 sh0 hsu hsh
    by_cases h1 : cu ∧ a.url ∈ su
    · have e1 : dedupGo cu ct su sh (a :: rest) = dedupGo cu ct su sh rest := by
        simp only [dedupGo]
        rw [if_pos h1]
      rw [e1]
      exact ih su sh su0 sh0 hsu hsh
    · have hsu' : su ⊆ (if cu then a.url :: su else su) := by
        by_cases hcu : cu <;> simp [hcu, List.subset_cons_of_subset]
      by_cases h2 : ct ∧ a.content_hash ∈ sh
      · have e1 : dedupGo cu ct su sh (a :: rest) =
            dedupGo cu ct (if cu then a.url :: su else su) sh rest := by
          simp only [dedupGo]
          rw [if_neg h1, if_pos h2]
        rw [e1]
        exact ih (if cu then a.url :: su else su) sh su0 sh0 (hsu.trans hsu') hsh
      · have e1 : dedupGo cu ct su sh (a :: rest) =
            a :: dedupGo cu ct (if cu then a.url :: su else su)
              (if ct then a.content_hash :: sh else sh) rest := by
          simp only [dedupGo]
          rw [if_neg h1, if_neg h2]
        rw [e1]
        have h1' : ¬ (cu ∧ a.url ∈ su0) := fun h => h1 ⟨h.1, hsu h.2⟩
        have h2' : ¬ (ct ∧ a.content_hash ∈ sh0) := fun h => h2 ⟨h.1, hsh h.2⟩
        have e2 : dedupGo cu ct su0 sh0
            (a :: dedupGo cu ct (if cu then a.url :: su else su)
              (if ct then a.content_hash :: sh else sh) rest) =
            a :: dedupGo cu ct (if cu then a.url :: su0 else su0)
              (if ct then a.content_hash :: sh0 else sh0)
              (dedupGo cu ct (if cu then a.url :: su else su)
                (if ct then a.content_hash :: sh else sh) rest) := by
          simp only [dedupGo]
          rw [if_neg h1', if_neg h2']
        rw [e2]
        congr 1
        apply ih
        · by_cases hcu : cu <;> simp [hcu, List.cons_subset_cons, hsu]
        · by_cases hct : ct <;> simp [hct, List.cons_subset_cons, hsh]

/-- C7: deduplication is idempotent — for every settings and article list,
`deduplicate_articles (deduplicate_articles xs) = deduplicate_articles xs` —
and on a two-element list whose articles share `url` (and `title`) the
output is exactly the first article. -/
theorem C7_dedup_idempotent :
    (∀ (st : Settings) (xs : List Article),
      deduplicate_articles st (deduplicate_articles st xs) =
        deduplicate_articles st xs) ∧
    (∀ a b : Article, b.url = a.url → b.title = a.title →
      deduplicate_articles settings [a, b] = [a]) := by
  constructor
  · intro st xs
    exact dedupGo_idem_of_subset st.CHECK_DUPLICATES_BY_URL
      st.CHECK_DUPLICATES_BY_TITLE xs [] [] [] []
      (List.Subset.refl []) (List.Subset.refl [])
  · intro a b hurl _
    simp [deduplicate_articles, dedupGo, settings, hurl]

/-- C7 (witness): the idempotence equation and the two-duplicate collapse
evaluated on two concrete articles built by the `Article` constructor from
the same title and URL but different content, source and timestamps. -/
theorem C7_dedup_idempotent_witness :
    deduplicate_articles settings (deduplicate_articles settings [dupA, dupB]) =
        deduplicate_articles settings [dupA, dupB] ∧
      deduplicate_articles settings [dupA, dupB] = [dupA] :=
  ⟨C7_dedup_idempotent.1 settings [dupA, dupB],
   C7_dedup_idempotent.2 dupA dupB rfl rfl⟩

/-! ### C8 — per-entry failure isolation in the RSS fetch -/

theorem rssScrape_eq_filterMap (st : Settings) (detect : String → String)
    (now : Int) (src : String) (cat : Option String) :
    ∀ (entries : List RssEntry) (acc : List Article),
      List.foldl
        (fun articles entry =>
          match parseEntryE st detect now src cat entry with
          | .error _ => articles
          | .ok none => articles
          | .ok (some a) => articles ++ [a]) acc entries =
      acc ++ entries.filterMap (fun entry =>
          match parseEntryE st detect now src cat entry with
          | .error _ => none
          | .ok none => none
          | .ok (some a) => some a) := by
  intro entries
  induction entries with
  | nil => intro acc; simp
  | cons e rest ih =>
    intro acc
    cases hp : parseEntryE st detect now src cat e with
    | error u => simp [List.foldl_cons, List.filterMap_cons, hp, ih]
    | ok o =>
      cases o with
      | none => simp [List.foldl_cons, List.filterMap_cons, hp, ih]
      | some a => simp [List.foldl_cons, List.filterMap_cons, hp, ih]

/-- C8: a parse failure of one individual entry does not abort the fetch —
the article of every well-formed entry is still in `scrape`'s output, and
removing a malformed entry from the feed leaves the output unchanged. -/
theorem C8_malformed_entry_isolation :
    (∀ (st : Settings) (detect : String → String) (now : Int) (src : String)
        (cat : Option String) (entries : List RssEntry) (e : RssEntry) (a : Article),
      e ∈ entries → parseEntryE st detect now src cat e = .ok (some a) →
      a ∈ rssScrape st detect now src cat entries) ∧
    (∀ (st : Settings) (detect : String → String) (now : Int) (src : String)
        (cat : Option String) (pre post : List RssEntry),
      rssScrape st detect now src cat (pre ++ RssEntry.malformed :: post) =
        rssScrape st detect now src cat (pre ++ post)) := by
  constructor
  · intro st detect now src cat entries e a he hp
    unfold rssScrape
    rw [rssScrape_eq_filterMap]
    simp only [List.nil_append]
    exact List.mem_filterMap.mpr ⟨e, he, by rw [hp]⟩
  · intro st detect now src cat pre post
    unfold rssScrape
    rw [rssScrape_eq_filterMap, rssScrape_eq_filterMap]
    simp [parseEntryE]

/-- C8 (witness): in a feed holding one well-formed entry and one malformed
entry, the article parsed from the well-formed entry is in the output. -/
theorem C8_malformed_entry_isolation_witness :
    ((rssParseEntry settings detectEn rssNow "bbc" none goodEntry1).getD
        defaultArticle) ∈
      rssScrape settings detectEn rssNow "bbc" none
        [.good goodEntry1, .malformed] :=
  C8_malformed_entry_isolation.1 settings detectEn rssNow "bbc" none
    [.good goodEntry1, .malformed] (.good goodEntry1) _ (by simp) (by rfl)

/-! ### C6 — freshness filtering at the connector stage -/

/-- C6 (amended): only the Feed connector enforces the freshness window —
`_parse_entry` returns `None` for every entry whose parsed publication time
is at least `SCRAPE_LAST_N_HOURS` old — while the Polling-API connector
performs no freshness check at all: `_parse_api_article` produces an
article exactly when the stripped title and URL are nonempty, regardless of
`publishedAt`. -/
theorem C6_freshness_feed_only :
    (∀ (st : Settings) (detect : String → String) (now : Int) (src : String)
        (cat : Option String) (e : RssEntryData) (p : Int),
      e.published_parsed = some p →
      st.SCRAPE_LAST_N_HOURS * 3600 ≤ now - p →
      rssParseEntry st detect now src cat e = none) ∧
    (∀ (detect : String → String) (now : Int) (cat : Option String)
        (item : ApiItem),
      (apiParseArticle detect now cat item).isSome = true ↔
        pyStrip item.title ≠ "" ∧ pyStrip item.url ≠ "") := by
  constructor
  · intro st detect now src cat e p hp hstale
    simp only [rssParseEntry]
    by_cases h1 : pyStrip e.title = ""
    · rw [if_pos h1]
    · rw [if_neg h1]
      by_cases h2 : pyStrip e.link = ""
      · rw [if_pos h2]
      · rw [if_neg h2]
        have h3 : is_recent now (e.published_parsed.getD now)
            st.SCRAPE_LAST_N_HOURS = false := by
          rw [hp]
          simp only [Option.getD_some]
          simp only [is_recent, decide_eq_false_iff_not, not_lt]
          omega
        rw [if_pos (by simp [h3])]
  · intro detect now cat item
    by_cases h : pyStrip item.title = "" ∨ pyStrip item.url = ""
    · simp only [apiParseArticle]
      rw [if_pos h]
      simp only [Option.isSome_none, Bool.false_eq_true, false_iff]
      rcases h with h | h
      · exact fun hc => hc.1 h
      · exact fun hc => hc.2 h
    · simp only [apiParseArticle]
      rw [if_neg h]
      simp only [Option.isSome_some, true_iff]
      exact not_or.mp h

/-- C6 (witness): a feed entry published 40 days before fetch time is
discarded by the RSS connector, while a NewsAPI item published 40 days
before fetch time still yields an article from the API connector. -/
theorem C6_freshness_feed_only_witness :
    rssParseEntry settings detectEn now40d "bbc" none staleRssEntry = none ∧
      (apiParseArticle detectEn now40d none staleItem).isSome = true :=
  ⟨C6_freshness_feed_only.1 settings detectEn now40d "bbc" none staleRssEntry 0
      rfl (by decide),
   (C6_freshness_feed_only.2 detectEn now40d none staleItem).mpr (by decide)⟩

/-- C6 (counterexample): the claim quantifies over both connector variants,
but the Polling-API connector passes a 40-day-old entry onward: parsing
`staleItem` (published at epoch second 0, fetched at second 3456000, i.e.
40 days later — older than both the 7-day window of the spec's example and
the 24-hour `SCRAPE_LAST_N_HOURS` window) yields an article rather than
discarding it. -/
theorem C6_freshness_api_counterexample :
    (apiParseArticle detectEn now40d none staleItem).isSome = true ∧
      staleItem.publishedAt = some 0 ∧
      (7 * 86400 : Int) ≤ now40d - 0 := by
  refine ⟨by decide, rfl, by decide⟩

/-! ### C3 — batch failure behaviour of the delivery task -/

/-- C3 (counterexample): with 25 articles (3 batches at `BATCH_SIZE = 10`)
and a backend failing exactly the POST of batch 1 (0-based), one execution
of `send_articles_to_backend` POSTs batches 0 and 1 and then raises
(`self.retry`): batch 2 is never attempted, no sent count is returned, and
no `failed_batches` statistic exists — contradicting the claim that
batches 1 and 3 are delivered with `sent = size(batch1) + size(batch3) = 15`
and `failed_batches = 1`. -/
theorem C3_batch_abort_counterexample :
    send_articles_to_backend settings respondFailAt1 articles25 =
        ([0, 1], Except.error "HTTPError") ∧
      2 ∉ (send_articles_to_backend settings respondFailAt1 articles25).1 ∧
      (send_articles_to_backend settings respondFailAt1 articles25).2 ≠
        Except.ok 15 := by
  refine ⟨by decide, by decide, by decide⟩

/-- C3 (amended): in a 3-batch delivery where batch 0 succeeds and the POST
of batch 1 raises, one task execution POSTs exactly batches 0 and 1 in
order and terminates by re-raising the error (the Celery task then retries
the whole job); later batches are not attempted and no statistics are
produced. -/
theorem C3_batch_failure_aborts_run (α : Type) (articles : List α)
    (respond : Nat → List α → Except String (Option Nat))
    (b1 b2 b3 : List α) (c : Option Nat) (e : String)
    (hchunk : chunkList settings.BATCH_SIZE articles = [b1, b2, b3])
    (h0 : respond 0 b1 = .ok c) (h1 : respond 1 b2 = .error e) :
    send_articles_to_backend settings respond articles = ([0, 1], .error e) := by
  have hne : articles.isEmpty = false := by
    cases articles with
    | nil => simp [chunkList, chunkListAux] at hchunk
    | cons x xs => rfl
  unfold send_articles_to_backend
  rw [if_neg (by simp [hne])]
  rw [hchunk]
  simp [sendGo, h0, h1]

/-- C3 (witness): the amended behaviour evaluated on 25 concrete payloads
with the batch-1-failing backend. -/
theorem C3_batch_failure_aborts_run_witness :
    send_articles_to_backend settings respondFailAt1 articles25 =
      ([0, 1], Except.error "HTTPError") :=
  C3_batch_failure_aborts_run Nat articles25 respondFailAt1
    (articles25.take 10) ((articles25.drop 10).take 10)
    (((articles25.drop 10).drop 10).take 10) none "HTTPError"
    (by decide) rfl rfl

/-! ### C10 — the validity filter of `run()` -/

/-- C10: the validity filtering of `run()` is broken — `validArticle`
satisfies every condition of the documented validity predicate (nonempty
title and URL, 50 words of content, allowed language `en`, no blacklisted
keyword), yet `run()` returns the empty list on a scrape yielding exactly
this article, because `Article.is_valid` calls
`settings.is_allowed_language` — a module-level function of `config.py`,
not an attribute of the pydantic `Settings` instance — so the lookup
raises `AttributeError`, which `run()`'s blanket `except` turns into `[]`. -/
theorem C10_run_drops_valid_article :
    runScraper settings (.ok [validArticle]) = [] ∧
      Article.is_valid_intended settings validArticle = true ∧
      Article.is_valid settings validArticle =
        .error "AttributeError: 'Settings' object has no attribute 'is_allowed_language'" := by
  refine ⟨by decide, by decide, by decide⟩

/-! ### C9 — request spacing -/

theorem gapsAux_append :
    ∀ (xs ys : List Event) (a : ℚ),
      gapsAux (xs ++ ys) a = gapsAux xs a ++ gapsAux ys (trailSleep xs a) := by
  intro xs
  induction xs with
  | nil => intro ys a; simp [gapsAux, trailSleep]
  | cons ev rest ih =>
    intro ys a
    cases ev with
    | request => simp [gapsAux, trailSleep, ih]
    | sleep d => simp [gapsAux, trailSleep, ih]

/-- Within one `fetch_page` call, the waits between consecutive requests are
all `RETRY_DELAY`. -/
theorem fetchPageGo_gaps (st : Settings) (op : Nat → Except ReqError String) :
    ∀ (fuel retry : Nat) (a : ℚ), ∃ k,
      gapsAux (fetchPageGo st op fuel retry).trace a =
        a :: List.replicate k st.RETRY_DELAY := by
  intro fuel
  induction fuel with
  | zero =>
    intro retry a
    cases hop : op retry with
    | ok t => exact ⟨0, by simp [fetchPageGo, hop, gapsAux]⟩
    | error e =>
      by_cases hlt : retry < st.MAX_RETRIES
      · exact ⟨0, by simp [fetchPageGo, hop, hlt, gapsAux]⟩
      · exact ⟨0, by simp [fetchPageGo, hop, hlt, gapsAux]⟩
  | succ n ih =>
    intro retry a
    cases hop : op retry with
    | ok t => exact ⟨0, by simp [fetchPageGo, hop, gapsAux]⟩
    | error e =>
      by_cases hlt : retry < st.MAX_RETRIES
      · obtain ⟨k, hk⟩ := ih (retry + 1) st.RETRY_DELAY
        refine ⟨k + 1, ?_⟩
        simp [fetchPageGo, hop, hlt, gapsAux, List.replicate_succ]
        simpa using hk
      · exact ⟨0, by simp [fetchPageGo, hop, hlt, gapsAux]⟩

/-- After a `fetch_page` call, the sleep already performed since its last
request is `DOWNLOAD_DELAY` on success and `0` on final failure. -/
theorem fetchPageGo_trail (st : Settings) (op : Nat → Except ReqError String) :
    ∀ (fuel retry : Nat) (a : ℚ),
      trailSleep (fetchPageGo st op fuel retry).trace a =
        if (fetchPageGo st op fuel retry).result.isSome then st.DOWNLOAD_DELAY
        else 0 := by
  intro fuel
  induction fuel with
  | zero =>
    intro retry a
    cases hop : op retry with
    | ok t => simp [fetchPageGo, hop, trailSleep]
    | error e =>
      by_cases hlt : retry < st.MAX_RETRIES
      · simp [fetchPageGo, hop, hlt, trailSleep]
      · simp [fetchPageGo, hop, hlt, trailSleep]
  | succ n ih =>
    intro retry a
    cases hop : op retry with
    | ok t => simp [fetchPageGo, hop, trailSleep]
    | error e =>
      by_cases hlt : retry < st.MAX_RETRIES
      · simp [fetchPageGo, hop, hlt, trailSleep]
        simpa using ih (retry + 1) st.RETRY_DELAY
      · simp [fetchPageGo, hop, hlt, trailSleep]

theorem runCalls_cons (st : Settings) (op : Nat → Except ReqError String)
    (ops : List (Nat → Except ReqError String)) :
    runCalls st (op :: ops) = (fetch_page st op 0).trace ++ runCalls st ops := by
  simp [runCalls]

/-- Over a run of `fetch_page` calls that each succeed, every wait between
consecutive requests is `RETRY_DELAY` or `DOWNLOAD_DELAY`. -/
theorem runCalls_gapsShape (st : Settings) :
    ∀ (ops : List (Nat → Except ReqError String)),
      (∀ op ∈ ops, (fetch_page st op 0).result.isSome = true) →
      ∀ a : ℚ, gapsAux (runCalls st ops) a = [] ∨
        ∃ rest, gapsAux (runCalls st ops) a = a :: rest ∧
          ∀ g ∈ rest, g = st.RETRY_DELAY ∨ g = st.DOWNLOAD_DELAY := by
  intro ops
  induction ops with
  | nil => intro _ a; left; simp [runCalls, gapsAux]
  | cons op ops ih =>
    intro hsucc a
    right
    have hop : (fetch_page st op 0).result.isSome = true :=
      hsucc op (List.mem_cons_self op ops)
    have hops : ∀ o ∈ ops, (fetch_page st o 0).result.isSome = true :=
      fun o ho => hsucc o (List.mem_cons_of_mem op ho)
    rw [runCalls_cons, gapsAux_append]
    obtain ⟨k, hk⟩ := fetchPageGo_gaps st op (st.MAX_RETRIES - 0) 0 a
    have hk' : gapsAux (fetch_page st op 0).trace a =
        a :: List.replicate k st.RETRY_DELAY := hk
    have htr : trailSleep (fetch_page st op 0).trace a = st.DOWNLOAD_DELAY := by
      have h := fetchPageGo_trail st op (st.MAX_RETRIES - 0) 0 a
      rw [show fetch_page st op 0 = fetchPageGo st op (st.MAX_RETRIES - 0) 0 from rfl]
      rw [h]
      rw [show fetchPageGo st op (st.MAX_RETRIES - 0) 0 = fetch_page st op 0 from rfl]
      simp [hop]
    rcases ih hops st.DOWNLOAD_DELAY with hnil | ⟨rest, hr, hmem⟩
    · refine ⟨List.replicate k st.RETRY_DELAY, ?_, ?_⟩
      · rw [hk', htr, hnil]
        simp
      · intro g hg
        left
        exact List.eq_of_mem_replicate hg
    · refine ⟨List.replicate k st.RETRY_DELAY ++ st.DOWNLOAD_DELAY :: rest, ?_, ?_⟩
      · rw [hk', htr, hr]
        simp
      · intro g hg
        rcases List.mem_append.mp hg with h | h
        · left
          exact List.eq_of_mem_replicate h
        · rcases List.mem_cons.mp h with h | h
          · right
            exact h
          · exact hmem g h

/-- `fetch_page` never reads `REQUESTS_PER_SECOND`: changing it leaves the
trace and result unchanged. -/
theorem fetchPageGo_rps_unused (st : Settings) (q : ℚ)
    (op : Nat → Except ReqError String) :
    ∀ (fuel retry : Nat),
      fetchPageGo { st with REQUESTS_PER_SECOND := q } op fuel retry =
        fetchPageGo st op fuel retry := by
  intro fuel
  induction fuel with
  | zero =>
    intro retry
    cases hop : op retry with
    | ok t => simp [fetchPageGo, hop]
    | error e => simp [fetchPageGo, hop]
  | succ n ih =>
    intro retry
    cases hop : op retry with
    | ok t => simp [fetchPageGo, hop]
    | error e => simp [fetchPageGo, hop, ih]

/-- C9 (amended): over any sequence of `fetch_page` calls that each
succeed, consecutive requests are separated by at least the stricter of the
`DOWNLOAD_DELAY` minimum inter-request delay and the
`1 / REQUESTS_PER_SECOND` spacing (each wait is `RETRY_DELAY = 5` or
`DOWNLOAD_DELAY = 1`, both ≥ `max 1 (1/2)`); however this relies solely on
the post-success `time.sleep(DOWNLOAD_DELAY)` and the inter-retry
`time.sleep(RETRY_DELAY)` — the `REQUESTS_PER_SECOND` setting itself is
never read by the fetch path (second conjunct), and a call that exhausts
its retries ends with no sleep at all (see the counterexample). -/
theorem C9_request_spacing :
    (∀ ops : List (Nat → Except ReqError String),
      (∀ op ∈ ops, (fetch_page settings op 0).result.isSome = true) →
      ∀ g ∈ requestGaps (runCalls settings ops),
        max settings.DOWNLOAD_DELAY (1 / settings.REQUESTS_PER_SECOND) ≤ g) ∧
    (∀ (st : Settings) (q : ℚ) (op : Nat → Except ReqError String) (retry : Nat),
      fetch_page { st with REQUESTS_PER_SECOND := q } op retry =
        fetch_page st op retry) := by
  constructor
  · intro ops hsucc g hg
    unfold requestGaps at hg
    rcases runCalls_gapsShape settings ops hsucc 0 with hnil | ⟨rest, hr, hmem⟩
    · rw [hnil] at hg
      simp at hg
    · rw [hr] at hg
      have hRD : settings.RETRY_DELAY = 5 := rfl
      have hDD : settings.DOWNLOAD_DELAY = 1 := rfl
      have hRPS : settings.REQUESTS_PER_SECOND = 2 := rfl
      rcases hmem g hg with h | h <;> subst h <;>
        simp only [hRD, hDD, hRPS] <;> norm_num
  · intro st q op retry
    unfold fetch_page
    rw [fetchPageGo_rps_unused]

/-- C9 (witness): two back-to-back successful `fetch_page` calls; the
single inter-request wait is `DOWNLOAD_DELAY = 1` second, which meets the
stricter spacing `max 1 (1/2) = 1`. -/
theorem C9_request_spacing_witness :
    max settings.DOWNLOAD_DELAY (1 / settings.REQUESTS_PER_SECOND) ≤ (1 : ℚ) := by
  have hsucc : ∀ op ∈ [okOp, okOp],
      (fetch_page settings op 0).result.isSome = true := by
    intro op hop
    rcases List.mem_cons.mp hop with h | h
    · rw [h]
      rfl
    · rcases List.mem_cons.mp h with h | h
      · rw [h]
        rfl
      · simp at h
  have hlist : requestGaps (runCalls settings [okOp, okOp]) = [1] := by
    show (gapsAux ((fetch_page settings okOp 0).trace ++
      ((fetch_page settings okOp 0).trace ++ [])) 0).tail = [1]
    rw [show (fetch_page settings okOp 0).trace =
      [Event.request, Event.sleep settings.DOWNLOAD_DELAY] from rfl]
    simp [gapsAux, trailSleep]
    rfl
  exact C9_request_spacing.1 [okOp, okOp] hsucc 1
    (by rw [hlist]; exact List.mem_singleton.mpr rfl)

/-- C9 (counterexample): a `fetch_page` call that exhausts its retries ends
with no sleep, so the very next request is issued with zero enforced wait:
in the run `[always-failing call, successful call]` the waits between the
five requests are `[5, 5, 5, 0]`, and the zero gap is below even the laxer
of the two claimed spacings (`min DOWNLOAD_DELAY (1/REQUESTS_PER_SECOND) = 1/2`). -/
theorem C9_request_spacing_counterexample :
    requestGaps (runCalls settings [failOp, okOp]) = [5, 5, 5, 0] ∧
      (0 : ℚ) < min settings.DOWNLOAD_DELAY (1 / settings.REQUESTS_PER_SECOND) := by
  constructor
  · show (gapsAux ((fetch_page settings failOp 0).trace ++
      ((fetch_page settings okOp 0).trace ++ [])) 0).tail = [5, 5, 5, 0]
    rw [show (fetch_page settings failOp 0).trace =
      failTrace settings settings.MAX_RETRIES from
        congrArg FetchRes.trace (fetch_page_fail settings failOp
          (fun _ => ⟨.timeout, rfl⟩))]
    rw [show (fetch_page settings okOp 0).trace =
      [Event.request, Event.sleep settings.DOWNLOAD_DELAY] from rfl]
    rw [gapsAux_append]
    rw [gapsAux_failTrace, trailSleep_failTrace]
    have hRD : settings.RETRY_DELAY = 5 := rfl
    have hDD : settings.DOWNLOAD_DELAY = 1 := rfl
    have hMR : settings.MAX_RETRIES = 3 := rfl
    rw [hRD, hDD, hMR]
    simp [gapsAux, List.replicate]
  · have hDD : settings.DOWNLOAD_DELAY = 1 := rfl
    have hRPS : settings.REQUESTS_PER_SECOND = 2 := rfl
    rw [hDD, hRPS]
    norm_num

end NewsAggregator

